import Mathlib

/-!
Verification of the session/cookie lifecycle and site-client behaviour of the
three MCP grocery-server wrappers (e-fresh, skroutz, sklavenitis).

The Python sources are shallowly embedded: JSON documents become an inductive
`Json` type, the session file becomes an `Option FileContent` value, Python
exceptions become an explicit `Except PyErr` result, and the remote HTTP
endpoints become oracle parameters (`ReqResult`, page streams) supplied to each
operation.  Each definition mirrors one function of the source tree; exception
handlers of the source are reflected by explicit `match` on the `Except` value.
-/

namespace Spec

/-- JSON documents, as produced by Python's `json` module.  Object fields keep
their textual order; duplicate keys are resolved by `objGet` keeping the last
binding, as `json.loads` does. -/
inductive Json where
  | null
  | bool (b : Bool)
  | num (n : Int)
  | str (s : String)
  | arr (xs : List Json)
  | obj (fields : List (String × Json))

/-- Python exception classes relevant to the embedded code. -/
inductive PyErr where
  | typeError
  | valueError
  | attributeError
  | ioError
  | transport
  | httpStatus
  | notAuthenticated
deriving DecidableEq, Repr

/-- Content of a file on disk: either a document that `json.load` parses, or
text that makes `json.load` raise `JSONDecodeError`. -/
inductive FileContent where
  | valid (j : Json)
  | corruptText

/-- Dictionary lookup on a JSON object's field list (last binding wins, as in
Python's `json.loads`). -/
def objGet (fields : List (String × Json)) (key : String) : Option Json :=
  fields.foldl (fun acc kv => if kv.1 = key then some kv.2 else acc) none

/-- Python truthiness (`bool(x)`) on JSON-shaped values. -/
def jsonTruthy : Json → Bool
  | Json.null => false
  | Json.bool b => b
  | Json.num n => decide (n ≠ 0)
  | Json.str s => !s.isEmpty
  | Json.arr xs => !xs.isEmpty
  | Json.obj fs => !fs.isEmpty

/-- Python `str(x)` on JSON-shaped values.  Containers render to a bracketed
text; the embedding only needs that such text is not a decimal numeral. -/
def pyStr : Json → String
  | Json.null => "None"
  | Json.bool true => "True"
  | Json.bool false => "False"
  | Json.num n => toString n
  | Json.str s => s
  | Json.arr _ => "[...]"
  | Json.obj _ => "{...}"

/-- Substring test on character lists. -/
def containsSub : List Char → List Char → Bool
  | [], needle => needle.isEmpty
  | c :: rest, needle => needle.isPrefixOf (c :: rest) || containsSub rest needle

/-- `key in x` for JSON-shaped values: membership test on dict keys and list
elements, substring test on strings, `TypeError` otherwise. -/
def pyContains (j : Json) (key : String) : Except PyErr Bool :=
  match j with
  | Json.obj fields => Except.ok (fields.any (fun kv => kv.1 == key))
  | Json.arr xs => Except.ok (xs.any (fun x => match x with | Json.str s => s == key | _ => false))
  | Json.str s => Except.ok (containsSub s.toList key.toList)
  | _ => Except.error PyErr.typeError

/-- `x[key]`: indexing a non-dict raises `TypeError`; a missing key raises
(`KeyError`, mapped onto `valueError`-like failure is not needed here: all call
sites guard with `pyContains` first, so we use `typeError` for both). -/
def pyIndex (j : Json) (key : String) : Except PyErr Json :=
  match j with
  | Json.obj fields =>
      match objGet fields key with
      | some v => Except.ok v
      | none => Except.error PyErr.typeError
  | _ => Except.error PyErr.typeError

/-- `x.get(key)`: raises `AttributeError` on non-dicts, returns `None` default
otherwise. -/
def pyGet (j : Json) (key : String) : Except PyErr (Option Json) :=
  match j with
  | Json.obj fields => Except.ok (objGet fields key)
  | _ => Except.error PyErr.attributeError

/-- `x.get(key, default)`. -/
def pyGetD (j : Json) (key : String) (d : Json) : Except PyErr Json :=
  match j with
  | Json.obj fields => Except.ok ((objGet fields key).getD d)
  | _ => Except.error PyErr.attributeError

/-- Plain decimal numerals accepted by `decimal.Decimal` (optional sign,
digits with at most one point and at least one digit; exponent forms are not
needed by the embedded call sites, whose numeric inputs are rendered by
`str()` from JSON numbers). -/
def isDecimalLit (s : String) : Bool :=
  let cs := match s.toList with
    | '-' :: rest => rest
    | '+' :: rest => rest
    | cs => cs
  cs.all (fun c => c.isDigit || c == '.')
    && cs.count '.' ≤ 1
    && cs.any Char.isDigit

/-- `Decimal(s)`: keeps the accepted literal, raises otherwise
(`decimal.InvalidOperation`, caught by the callers' `except Exception`). -/
def decimalOfString (s : String) : Except PyErr String :=
  if isDecimalLit s then Except.ok s else Except.error PyErr.valueError

/-! ## skroutz auth manager (skroutz_server/auth.py, skroutz_server/models.py) -/

/-- `SessionData` of skroutz_server/models.py. -/
structure SessionData where
  cookies : List (String × String) := []
  user_id : Option String := none
  user_email : Option String := none
  is_authenticated : Bool := false
deriving DecidableEq, Repr

/-- Pydantic validation of the entries of a `dict[str, str]` field. -/
def validateStrPairs : List (String × Json) → Except PyErr (List (String × String))
  | [] => Except.ok []
  | kv :: rest =>
      match kv.2 with
      | Json.str s =>
          match validateStrPairs rest with
          | Except.ok tail => Except.ok ((kv.1, s) :: tail)
          | Except.error e => Except.error e
      | _ => Except.error PyErr.valueError

/-- Pydantic validation of a `dict[str, str]` field. -/
def validateStrMap : Json → Except PyErr (List (String × String))
  | Json.obj fields => validateStrPairs fields
  | _ => Except.error PyErr.valueError

/-- Pydantic validation of an `Optional[str]` field (absent field uses the
declared default `None`). -/
def validateOptStr : Option Json → Except PyErr (Option String)
  | none => Except.ok none
  | some Json.null => Except.ok none
  | some (Json.str s) => Except.ok (some s)
  | some _ => Except.error PyErr.valueError

/-- Pydantic validation of a `bool` field (lax mode also accepts 0/1). -/
def validateBool : Option Json → Except PyErr Bool
  | none => Except.ok false
  | some (Json.bool b) => Except.ok b
  | some (Json.num 0) => Except.ok false
  | some (Json.num 1) => Except.ok true
  | some _ => Except.error PyErr.valueError

/-- `SessionData(**data)` for a JSON object `data`: pydantic field validation
with defaults; validation failures are `ValueError`s (pydantic
`ValidationError`). -/
def sessionDataOfKwargs (fields : List (String × Json)) : Except PyErr SessionData := do
  let cookies ← match objGet fields "cookies" with
    | none => Except.ok ([] : List (String × String))
    | some v => validateStrMap v
  let uid ← validateOptStr (objGet fields "user_id")
  let mail ← validateOptStr (objGet fields "user_email")
  let auth ← validateBool (objGet fields "is_authenticated")
  Except.ok { cookies := cookies, user_id := uid, user_email := mail, is_authenticated := auth }

/-- `AuthManager._load_session` (skroutz): reads the session file; catches only
`json.JSONDecodeError` and `ValueError`.  `SessionData(**data)` applied to a
non-mapping JSON document raises `TypeError`, which this handler does not
cover. -/
def skroutzLoadSession : Option FileContent → Except PyErr SessionData
  | none => Except.ok {}
  | some FileContent.corruptText => Except.ok {}
  | some (FileContent.valid j) =>
      match j with
      | Json.obj fields =>
          match sessionDataOfKwargs fields with
          | Except.ok s => Except.ok s
          | Except.error _ => Except.ok {}
      | _ => Except.error PyErr.typeError

/-- `model_dump` followed by `json.dump` (skroutz `_save_session` body). -/
def dumpOptStr : Option String → Json
  | none => Json.null
  | some s => Json.str s

/-- The JSON document `_save_session` writes for a session. -/
def dumpSession (s : SessionData) : Json :=
  Json.obj [("cookies", Json.obj (s.cookies.map (fun kv => (kv.1, Json.str kv.2)))),
            ("user_id", dumpOptStr s.user_id),
            ("user_email", dumpOptStr s.user_email),
            ("is_authenticated", Json.bool s.is_authenticated)]

/-- `AuthManager._save_session` (skroutz): plain `open`/`json.dump` with no
exception handler — a failing write propagates as an `IOError`. -/
def skroutzWriteSessionFile (s : SessionData) (writeOk : Bool) :
    Except PyErr (Option FileContent) :=
  if writeOk then Except.ok (some (FileContent.valid (dumpSession s)))
  else Except.error PyErr.ioError

/-- `AuthManager.save_session` (skroutz): assigns the new in-memory session,
then calls `_save_session`.  Returns the new session together with the write
outcome (the assignment precedes the possibly-raising write). -/
def skroutzSaveSession (cookies : List (String × String)) (mail : Option String)
    (writeOk : Bool) : SessionData × Except PyErr (Option FileContent) :=
  let s : SessionData :=
    { cookies := cookies, user_id := none, user_email := mail, is_authenticated := true }
  (s, skroutzWriteSessionFile s writeOk)

/-- `AuthManager.is_authenticated` (skroutz). -/
def skroutzIsAuthenticated (s : SessionData) : Bool :=
  s.is_authenticated && !s.cookies.isEmpty

/-! ## sklavenitis auth manager (sklavenitis_server/auth.py) -/

/-- In-memory state of the sklavenitis `AuthManager`: `self.cookies` is a
dynamically-typed attribute (the legacy-file branch can store any JSON value
in it), so it is kept as `Json`. -/
structure SklAuthState where
  cookies : Json := Json.obj []
  is_authenticated : Bool := false

/-- The file written by sklavenitis `save_session`. -/
def sklSessionFileContent (cookies : Json) : FileContent :=
  FileContent.valid (Json.obj [("cookies", cookies)])

/-- Writing the sklavenitis session file (the bare `open`/`json.dump`). -/
def sklWriteSessionFile (cookies : Json) (writeOk : Bool) :
    Except PyErr (Option FileContent) :=
  if writeOk then Except.ok (some (sklSessionFileContent cookies))
  else Except.error PyErr.ioError

/-- `AuthManager.save_session` (sklavenitis): assigns cookies and
`is_authenticated = bool(cookies)`, then writes the file inside
`try/except Exception` — a failing write is logged and swallowed, leaving the
previous file state. -/
def sklSaveSession (cookies : Json) (writeOk : Bool) (fs : Option FileContent) :
    Except PyErr (SklAuthState × Option FileContent) :=
  let st : SklAuthState := { cookies := cookies, is_authenticated := jsonTruthy cookies }
  match sklWriteSessionFile cookies writeOk with
  | Except.ok fs2 => Except.ok (st, fs2)
  | Except.error _ => Except.ok (st, fs)

/-- Legacy-cookie-file branch of `_load_session` (sklavenitis): runs when the
session-file branch did not return; a truthy legacy value is re-saved through
`save_session` (whose write failures are swallowed); `json.load` failures are
caught, keeping the state `st1` left by the session-file branch. -/
def sklLegacyBranch (legacy fs : Option FileContent) (writeOk : Bool)
    (st1 : SklAuthState) : Except PyErr (SklAuthState × Option FileContent) :=
  match legacy with
  | some (FileContent.valid j) =>
      if jsonTruthy j then
        match sklSaveSession j writeOk fs with
        | Except.ok r => Except.ok r
        | Except.error _ => Except.ok ({ cookies := j, is_authenticated := true }, fs)
      else Except.ok ({ cookies := j, is_authenticated := false }, fs)
  | some FileContent.corruptText => Except.ok (st1, fs)
  | none => Except.ok (st1, fs)

/-- `AuthManager._load_session` (sklavenitis): session-file branch inside
`try/except Exception` (a non-dict document makes `data.get` raise
`AttributeError`, which the handler catches); when it does not return
authenticated, the legacy file is tried.  Every exception path is caught, so
the result is always `ok`. -/
def sklLoadSession (fs legacy : Option FileContent) (writeOk : Bool) :
    Except PyErr (SklAuthState × Option FileContent) :=
  match fs with
  | some (FileContent.valid (Json.obj fields)) =>
      let c := (objGet fields "cookies").getD (Json.obj [])
      if jsonTruthy c then Except.ok ({ cookies := c, is_authenticated := true }, fs)
      else sklLegacyBranch legacy fs writeOk { cookies := c, is_authenticated := false }
  | some (FileContent.valid _) => sklLegacyBranch legacy fs writeOk {}
  | some FileContent.corruptText => sklLegacyBranch legacy fs writeOk {}
  | none => sklLegacyBranch legacy fs writeOk {}

/-! ## skroutz environment-cookie loader (`AuthManager.__init__` /
`_load_cookies_from_env`) -/

/-- The environment as seen by `_load_cookies_from_env`: each variable is
`none` when unset, otherwise its (possibly empty) string value;
`SKROUTZ_COOKIES` is carried with its `json.loads` outcome (`some none` = set
but unparseable). -/
structure SkroutzEnv where
  helmet_couch : Option String := none
  cf_clearance : Option String := none
  dd : Option String := none
  logged_in : Option String := none
  zlcmid : Option String := none
  cookies_json : Option (Option Json) := none

/-- `if v:` on an environment-variable value. -/
def strTruthy : Option String → Bool
  | some s => !s.isEmpty
  | none => false

/-- One conditional cookie insertion of method 1. -/
def envCookie (name : String) (v : Option String) : List (String × Json) :=
  match v with
  | some s => if s.isEmpty then [] else [(name, Json.str s)]
  | none => []

/-- Method-1 cookie collection of `_load_cookies_from_env`: the five
individual environment variables, in insertion order, with `SKROUTZ_LOGGED_IN`
defaulting to `"true"`. -/
def skroutzMethod1Cookies (env : SkroutzEnv) : List (String × Json) :=
  envCookie "_helmet_couch" env.helmet_couch
  ++ envCookie "cf_clearance" env.cf_clearance
  ++ envCookie "dd" env.dd
  ++ envCookie "logged_in" (some (env.logged_in.getD "true"))
  ++ envCookie "__zlcmid" env.zlcmid

/-- `AuthManager._load_cookies_from_env`, cookie-collection part.  Returns the
collected cookie dict (values still JSON-typed: the `SKROUTZ_COOKIES` fallback
can contribute non-string values) and whether the method-2 fallback block was
reached. -/
def skroutzLoadCookiesFromEnv (env : SkroutzEnv) : List (String × Json) × Bool :=
  let cookies := skroutzMethod1Cookies env
  if cookies.isEmpty then
    match env.cookies_json with
    | none => ([], true)
    | some none => ([], true)
    | some (some (Json.obj fields)) => (if fields.isEmpty then [] else fields, true)
    | some (some _) => ([], true)
  else (cookies, false)

/-- Tail of `_load_cookies_from_env`: when cookies were collected, the session
is overwritten with `SessionData(cookies=cookies, is_authenticated=True)`
(pydantic validation, uncaught here) and `_save_session` is called (uncaught).
Returns session, file state and whether the fallback block was reached. -/
def skroutzEnvUpdate (session : SessionData) (fs : Option FileContent)
    (env : SkroutzEnv) (writeOk : Bool) :
    Except PyErr (SessionData × Option FileContent × Bool) :=
  let r := skroutzLoadCookiesFromEnv env
  if r.1.isEmpty then Except.ok (session, fs, r.2)
  else
    match validateStrMap (Json.obj r.1) with
    | Except.error e => Except.error e
    | Except.ok cs =>
        let s : SessionData := { cookies := cs, is_authenticated := true }
        match skroutzWriteSessionFile s writeOk with
        | Except.error e => Except.error e
        | Except.ok fs2 => Except.ok (s, fs2, r.2)

/-- `AuthManager.__init__` (skroutz): `_load_session` then
`_load_cookies_from_env`. -/
def skroutzInit (fs : Option FileContent) (env : SkroutzEnv) (writeOk : Bool) :
    Except PyErr (SessionData × Option FileContent × Bool) :=
  match skroutzLoadSession fs with
  | Except.error e => Except.error e
  | Except.ok s => skroutzEnvUpdate s fs env writeOk

/-- File states `skroutzLoadSession` survives: absent, unparseable, or a JSON
object. -/
def loadShapeOk : Option FileContent → Bool
  | some (FileContent.valid (Json.obj _)) => true
  | some (FileContent.valid _) => false
  | some FileContent.corruptText => true
  | none => true

/-- `SKROUTZ_LOGGED_IN` unset or non-empty. -/
def envLoggedInOk (env : SkroutzEnv) : Bool :=
  match env.logged_in with
  | some s => !s.isEmpty
  | none => true

/-! ## Site clients: request/response oracle model -/

/-- Outcome of one HTTP call: the transport either raises or yields a status
code. -/
inductive ReqResult where
  | raised
  | resp (status : Nat)
deriving DecidableEq, Repr

/-- Requests a cart-mutating operation can issue. -/
inductive Req where
  | postApiCartAdd (productId : String) (quantity : Int)
  | postFormCartAdd (productId : String) (quantity : Int)
  | postSkroutzCartAdd (productId : String) (quantity : Int)
  | postSklCartAdd (productId : String) (quantity : Int)
  | getApiCart
  | getCartPage
deriving DecidableEq, Repr

/-- Whether a request re-fetches the cart. -/
def isCartFetch : Req → Bool
  | Req.getApiCart => true
  | Req.getCartPage => true
  | _ => false

/-- Domain cart object (items as product-id/quantity pairs plus a total);
the HTML/JSON body parsers of the sources are total up to their own
per-operation handlers, so the parsed cart for a given body is supplied by the
oracle. -/
structure Cart where
  items : List (String × Int) := []
  total : Int := 0
deriving DecidableEq, Repr

/-- `EFreshClient.add_to_cart`: API POST inside `try/except`; 200/201 returns
`True` immediately (no cart re-fetch); otherwise the bare fallback form POST
decides by status, and its transport errors propagate.  Result is paired with
the request trace. -/
def efreshAddToCart (auth : Bool) (apiResp formResp : ReqResult)
    (pid : String) (q : Int) : Except PyErr Bool × List Req :=
  if auth then
    let tr1 := [Req.postApiCartAdd pid q]
    let tr2 := tr1 ++ [Req.postFormCartAdd pid q]
    let fallback : Except PyErr Bool × List Req :=
      match formResp with
      | ReqResult.raised => (Except.error PyErr.transport, tr2)
      | ReqResult.resp s => (Except.ok (s == 200 || s == 201 || s == 302), tr2)
    match apiResp with
    | ReqResult.raised => fallback
    | ReqResult.resp s => if s == 200 || s == 201 then (Except.ok true, tr1) else fallback
  else (Except.error PyErr.notAuthenticated, [])

/-- `SkroutzClient.add_to_cart`: one POST inside `try/except Exception`;
status decides the boolean, any exception yields `False`. -/
def skroutzAddToCart (auth : Bool) (addResp : ReqResult)
    (pid : String) (q : Int) : Except PyErr Bool × List Req :=
  if auth then
    let tr := [Req.postSkroutzCartAdd pid q]
    match addResp with
    | ReqResult.raised => (Except.ok false, tr)
    | ReqResult.resp s => (Except.ok (s == 200 || s == 201 || s == 302), tr)
  else (Except.error PyErr.notAuthenticated, [])

/-- `SklavenitisClient.add_to_cart`: one POST inside `try/except Exception`;
200/201 decides the boolean, any exception yields `False`. -/
def sklAddToCart (auth : Bool) (addResp : ReqResult)
    (pid : String) (q : Int) : Except PyErr Bool × List Req :=
  if auth then
    let tr := [Req.postSklCartAdd pid q]
    match addResp with
    | ReqResult.raised => (Except.ok false, tr)
    | ReqResult.resp s => (Except.ok (s == 200 || s == 201), tr)
  else (Except.error PyErr.notAuthenticated, [])

/-- `EFreshClient.update_cart_item_quantity`: delegates to `add_to_cart`
(the endpoint sets, not increments, the quantity). -/
def efreshUpdateCartItemQuantity (auth : Bool) (apiResp formResp : ReqResult)
    (pid : String) (q : Int) : Except PyErr Bool × List Req :=
  efreshAddToCart auth apiResp formResp pid q

/-- Modelled from the spec: the remote e-fresh cart-add endpoint (outside this
repository) "sets rather than increments" the line quantity — re-adding a
product stores the new absolute quantity. -/
def efreshCartAddEndpoint (cart : List (String × Int)) (pid : String) (q : Int) :
    List (String × Int) :=
  if cart.any (fun kv => kv.1 == pid) then
    cart.map (fun kv => if kv.1 == pid then (kv.1, q) else kv)
  else cart ++ [(pid, q)]

/-- Quantity of a product line in a remote cart. -/
def lookupQty (cart : List (String × Int)) (pid : String) : Option Int :=
  (cart.find? (fun kv => kv.1 == pid)).map (fun kv => kv.2)

/-- `EFreshClient.get_cart`: API GET inside `try/except` (any failure there,
including body parsing, falls through); the fallback page GET and its
`raise_for_status` run outside any handler, so their errors propagate.
`apiParse` is the parsed cart of a 200 API body (`none` = body parsing
raised inside the `try`). -/
def efreshGetCart (auth : Bool) (apiResp : ReqResult) (apiParse : Option Cart)
    (pageResp : ReqResult) (pageCart : Cart) : Except PyErr Cart × List Req :=
  if auth then
    let tr2 := [Req.getApiCart, Req.getCartPage]
    let fallback : Except PyErr Cart × List Req :=
      match pageResp with
      | ReqResult.raised => (Except.error PyErr.transport, tr2)
      | ReqResult.resp s =>
          if 400 ≤ s then (Except.error PyErr.httpStatus, tr2)
          else (Except.ok pageCart, tr2)
    match apiResp with
    | ReqResult.raised => fallback
    | ReqResult.resp s =>
        if s == 200 then
          match apiParse with
          | some c => (Except.ok c, [Req.getApiCart])
          | none => fallback
        else fallback
  else (Except.error PyErr.notAuthenticated, [])

/-- `SkroutzClient.get_cart`: the whole request/parse body is inside
`try/except Exception` returning `Cart()` — only the authentication
precondition escapes. -/
def skroutzGetCart (auth : Bool) (pageResp : ReqResult) (pageCart : Cart) :
    Except PyErr Cart :=
  if auth then
    match pageResp with
    | ReqResult.raised => Except.ok {}
    | ReqResult.resp s => if 400 ≤ s then Except.ok {} else Except.ok pageCart
  else Except.error PyErr.notAuthenticated

/-! ## e-fresh order pagination (`EFreshClient.get_orders`) -/

/-- One page response of `/api/account/orders`: status, the orders
`_parse_orders` extracts, and the advertised `per_page`. -/
structure OrdersPageResp where
  status : Nat
  orders : List String
  perPage : Nat

/-- A page fetch either raises (body parse or transport — the outer handler
then leaves the loop) or yields a page. -/
inductive PageResult where
  | raised
  | ok (r : OrdersPageResp)

/-- The `while page <= max_pages` pagination loop of `get_orders`; `fuel` is
`max_pages - page + 1`.  Returns the accumulated orders and the number of page
requests issued. -/
def efreshOrdersLoop (pages : Nat → PageResult) :
    Nat → Nat → List String → List String × Nat
  | _, 0, acc => (acc, 0)
  | page, fuel + 1, acc =>
      match pages page with
      | PageResult.raised => (acc, 1)
      | PageResult.ok r =>
          if r.status == 200 then
            if r.orders.isEmpty then (acc, 1)
            else
              let acc2 := acc ++ r.orders
              if r.orders.length < r.perPage then (acc2, 1)
              else
                let next := efreshOrdersLoop pages (page + 1) fuel acc2
                (next.1, next.2 + 1)
          else (acc, 1)

/-- The fixed pagination ceiling (`max_pages = 50`). -/
def efreshMaxPages : Nat := 50

/-- The pagination phase of `get_orders`: pages from 1 with the full fuel. -/
def efreshGetOrdersPages (pages : Nat → PageResult) : List String × Nat :=
  efreshOrdersLoop pages 1 efreshMaxPages []

/-! ## e-fresh product-list parsing (`EFreshClient._parse_products_from_api`) -/

/-- Product record of the e-fresh server.  The e-fresh `models.py` is not in
the source tree; modelled from the spec (§3 Product: id, name, maker, price,
optional original price, availability, optional image URL) and the sibling
servers' pydantic models; the decimal price is kept as its accepted literal. -/
structure EfreshProduct where
  id : String
  name : String
  maker : Option String
  ean : Option String
  price : String
  original_price : Option String
  available : Bool
  image_url : Option String
  unit : Option String
deriving DecidableEq, Repr

/-- The loop body of `_parse_products_from_api` for a single entry: faithful
field extraction (`in` tests, indexing, `.get` with defaults, `Decimal`
conversion, pydantic field validation at `Product(...)`); any raised exception
is the per-entry failure the caller skips. -/
def parseProductEntry (item : Json) : Except PyErr EfreshProduct := do
  let maker ← do
    let hasAttrs ← pyContains item "attrs"
    if hasAttrs then
      let attrs ← pyIndex item "attrs"
      let hasDev ← pyContains attrs "developer_id"
      if hasDev then
        let dev ← pyIndex attrs "developer_id"
        pyGet dev "title"
      else pure none
    else pure none
  let imageUrl ← do
    let hasImg ← pyContains item "image"
    if hasImg then
      let img ← pyIndex item "image"
      let hasImage ← pyGet img "has_image"
      if jsonTruthy ((hasImage).getD Json.null) then pyGet img "url"
      else pure none
    else pure none
  let unit ← do
    let hasAttrs ← pyContains item "attrs"
    if hasAttrs then
      let attrs ← pyIndex item "attrs"
      let hasPkg ← pyContains attrs "pkg_unit"
      if hasPkg then
        let pkg ← pyIndex attrs "pkg_unit"
        pyGet pkg "title"
      else pure none
    else pure none
  let idInner ← pyGetD item "id" (Json.str "")
  let idVal ← pyGetD item "kodikos" idInner
  let nameJ ← pyGetD item "title" (Json.str "")
  let name ← match nameJ with
    | Json.str s => pure s
    | _ => Except.error PyErr.valueError
  let ean ← do
    let b ← pyGet item "barcode"
    validateOptStr b
  let priceJ ← pyGetD item "price" (Json.num 0)
  let price ← decimalOfString (pyStr priceJ)
  let po ← pyGet item "price_old"
  let originalPrice ← match po with
    | some v =>
        if jsonTruthy v then do
          let v2 ← pyIndex item "price_old"
          let d ← decimalOfString (pyStr v2)
          pure (some d)
        else pure none
    | none => pure none
  let inStock ← pyGetD item "in_stock" (Json.bool true)
  let saleable ← pyGetD item "is_saleable" (Json.bool true)
  let availJ := if jsonTruthy inStock then saleable else inStock
  let available ← validateBool (some availJ)
  let makerV ← validateOptStr maker
  let imageV ← validateOptStr imageUrl
  let unitV ← validateOptStr unit
  Except.ok { id := pyStr idVal, name := name, maker := makerV, ean := ean,
              price := price, original_price := originalPrice,
              available := available, image_url := imageV, unit := unitV }

/-- `_parse_products_from_api`: per-entry `try/except` — parse failures are
logged and skipped, successes are appended in order. -/
def parseProductsFromApi (xs : List Json) : List EfreshProduct :=
  xs.filterMap (fun j => (parseProductEntry j).toOption)

/-- A well-formed `/api/list` entry, for concrete instantiations. -/
def sampleProductEntry : Json :=
  Json.obj [("id", Json.num 7), ("title", Json.str "Milk"), ("price", Json.num 5)]

/-- A malformed `/api/list` entry (a non-dict: `.get` raises
`AttributeError`). -/
def malformedProductEntry : Json :=
  Json.arr []

/-! ## Helper lemmas -/

theorem sklSaveSession_total (cookies : Json) (writeOk : Bool) (fs : Option FileContent) :
    sklSaveSession cookies writeOk fs =
      Except.ok ({ cookies := cookies, is_authenticated := jsonTruthy cookies },
        if writeOk then some (sklSessionFileContent cookies) else fs) := by
  cases writeOk <;> simp [sklSaveSession, sklWriteSessionFile]

theorem sklLegacyBranch_total (legacy fs : Option FileContent) (writeOk : Bool)
    (st1 : SklAuthState) : ∃ r, sklLegacyBranch legacy fs writeOk st1 = Except.ok r := by
  match legacy with
  | none => exact ⟨_, rfl⟩
  | some FileContent.corruptText => exact ⟨_, rfl⟩
  | some (FileContent.valid j) =>
    by_cases h : jsonTruthy j = true
    · simp only [sklLegacyBranch, if_pos h, sklSaveSession_total]
      exact ⟨_, rfl⟩
    · simp only [sklLegacyBranch, if_neg h]
      exact ⟨_, rfl⟩

theorem sklLoadSession_total (fs legacy : Option FileContent) (writeOk : Bool) :
    ∃ r, sklLoadSession fs legacy writeOk = Except.ok r := by
  match fs with
  | none => exact sklLegacyBranch_total _ _ _ _
  | some FileContent.corruptText => exact sklLegacyBranch_total _ _ _ _
  | some (FileContent.valid (Json.obj fields)) =>
    by_cases h : jsonTruthy ((objGet fields "cookies").getD (Json.obj [])) = true
    · simp only [sklLoadSession, if_pos h]
      exact ⟨_, rfl⟩
    · simp only [sklLoadSession, if_neg h]
      exact sklLegacyBranch_total _ _ _ _
  | some (FileContent.valid Json.null) => exact sklLegacyBranch_total _ _ _ _
  | some (FileContent.valid (Json.bool b)) => exact sklLegacyBranch_total _ _ _ _
  | some (FileContent.valid (Json.num n)) => exact sklLegacyBranch_total _ _ _ _
  | some (FileContent.valid (Json.str s)) => exact sklLegacyBranch_total _ _ _ _
  | some (FileContent.valid (Json.arr xs)) => exact sklLegacyBranch_total _ _ _ _

theorem skroutzLoadSession_ok_of_shape (fs : Option FileContent)
    (h : loadShapeOk fs = true) : ∃ s, skroutzLoadSession fs = Except.ok s := by
  match fs with
  | none => exact ⟨_, rfl⟩
  | some FileContent.corruptText => exact ⟨_, rfl⟩
  | some (FileContent.valid j) =>
    cases j with
    | obj fields =>
      unfold skroutzLoadSession
      cases hk : sessionDataOfKwargs fields with
      | ok s => exact ⟨s, by simp [hk]⟩
      | error e => exact ⟨{}, by simp [hk]⟩
    | null => simp [loadShapeOk] at h
    | bool b => simp [loadShapeOk] at h
    | num n => simp [loadShapeOk] at h
    | str s => simp [loadShapeOk] at h
    | arr xs => simp [loadShapeOk] at h

theorem validateStrPairs_dump (l : List (String × String)) :
    validateStrPairs (l.map (fun kv => (kv.1, Json.str kv.2))) = Except.ok l := by
  induction l with
  | nil => rfl
  | cons kv rest ih => simp [validateStrPairs, ih]

theorem validateStrPairs_of_all_str (l : List (String × Json))
    (h : ∀ kv ∈ l, ∃ s, kv.2 = Json.str s) :
    ∃ m, validateStrPairs l = Except.ok m ∧ m.length = l.length := by
  induction l with
  | nil => exact ⟨[], rfl, rfl⟩
  | cons kv rest ih =>
    obtain ⟨s, hs⟩ := h kv (List.mem_cons_self kv rest)
    obtain ⟨m, hm, hlen⟩ := ih (fun x hx => h x (List.mem_cons_of_mem kv hx))
    refine ⟨(kv.1, s) :: m, ?_, by simp [hlen]⟩
    simp [validateStrPairs, hs, hm]

theorem envCookie_all_str (name : String) (v : Option String) :
    ∀ kv ∈ envCookie name v, ∃ s, kv.2 = Json.str s := by
  intro kv hkv
  cases v with
  | none => simp [envCookie] at hkv
  | some s =>
    by_cases he : s.isEmpty
    · simp [envCookie, he] at hkv
    · simp [envCookie, he] at hkv
      exact ⟨s, by rw [hkv]⟩

theorem method1_all_str (env : SkroutzEnv) :
    ∀ kv ∈ skroutzMethod1Cookies env, ∃ s, kv.2 = Json.str s := by
  intro kv hkv
  simp only [skroutzMethod1Cookies, List.mem_append] at hkv
  rcases hkv with (((h | h) | h) | h) | h
  · exact envCookie_all_str _ _ kv h
  · exact envCookie_all_str _ _ kv h
  · exact envCookie_all_str _ _ kv h
  · exact envCookie_all_str _ _ kv h
  · exact envCookie_all_str _ _ kv h

theorem ne_nil_append_right {α : Type} (a b : List α) (h : b ≠ []) : a ++ b ≠ [] := by
  cases a with
  | nil => simpa using h
  | cons x xs => simp

theorem ne_nil_append_left {α : Type} (a b : List α) (h : a ≠ []) : a ++ b ≠ [] := by
  cases a with
  | nil => exact absurd rfl h
  | cons x xs => simp

theorem method1_ne_nil (env : SkroutzEnv) (h : envLoggedInOk env = true) :
    skroutzMethod1Cookies env ≠ [] := by
  unfold skroutzMethod1Cookies
  have hli : envCookie "logged_in" (some (env.logged_in.getD "true")) ≠ [] := by
    unfold envLoggedInOk at h
    cases hv : env.logged_in with
    | none =>
      simp [envCookie, show ("true" : String).isEmpty = false from by decide]
    | some s =>
      rw [hv] at h
      have hs : s.isEmpty = false := by simpa using h
      simp [envCookie, hs]
  exact ne_nil_append_left _ _ (ne_nil_append_right _ _ hli)

theorem isEmpty_false_of_ne_nil {α : Type} (l : List α) (h : l ≠ []) :
    l.isEmpty = false := by
  cases l with
  | nil => exact absurd rfl h
  | cons x xs => rfl

theorem ordersLoop_fetch_le (pages : Nat → PageResult) :
    ∀ fuel page acc, (efreshOrdersLoop pages page fuel acc).2 ≤ fuel := by
  intro fuel
  induction fuel with
  | zero => intro page acc; simp [efreshOrdersLoop]
  | succ n ih =>
    intro page acc
    cases hpg : pages page with
    | raised => simp [efreshOrdersLoop, hpg]
    | ok r =>
      simp only [efreshOrdersLoop, hpg]
      by_cases hs : (r.status == 200) = true
      · by_cases ho : r.orders.isEmpty = true
        · simp [hs, ho]
        · by_cases hp : r.orders.length < r.perPage
          · simp [hs, ho, hp]
          · have := ih (page + 1) (acc ++ r.orders)
            simp only [if_pos hs, if_neg (fun hc => ho hc), if_neg hp]
            omega
      · simp [hs]

theorem lookupQty_set (cart : List (String × Int)) (pid : String) (q : Int)
    (h : cart.any (fun kv => kv.1 == pid) = true) :
    lookupQty (cart.map (fun kv => if kv.1 == pid then (kv.1, q) else kv)) pid = some q := by
  induction cart with
  | nil => simp at h
  | cons kv rest ih =>
    by_cases hk : kv.1 == pid
    · simp [lookupQty, List.find?, hk]
    · simp only [List.any_cons, hk, Bool.false_or] at h
      simp only [List.map_cons, hk, if_false, Bool.false_eq_true]
      simpa [lookupQty, List.find?, hk] using ih h

theorem lookupQty_append_absent (cart : List (String × Int)) (pid : String) (q : Int)
    (h : cart.any (fun kv => kv.1 == pid) = false) :
    lookupQty (cart ++ [(pid, q)]) pid = some q := by
  induction cart with
  | nil => simp [lookupQty, List.find?]
  | cons kv rest ih =>
    simp only [List.any_cons, Bool.or_eq_false_iff] at h
    simpa [lookupQty, List.find?, h.1] using ih h.2

theorem parseProductsFromApi_of_all_ok (l : List Json)
    (h : ∀ j ∈ l, ∃ p, parseProductEntry j = Except.ok p) :
    (parseProductsFromApi l).length = l.length := by
  induction l with
  | nil => rfl
  | cons j rest ih =>
    obtain ⟨p, hp⟩ := h j (List.mem_cons_self j rest)
    have := ih (fun x hx => h x (List.mem_cons_of_mem j hx))
    simp [parseProductsFromApi, List.filterMap_cons, hp, Except.toOption] at this ⊢
    exact this

/-! ## Claim theorems -/

/-- C1 counterexample: `EFreshClient.add_to_cart` returns `True` on an API
status 200 without any cart re-fetch — the request trace holds only the
mutating POST, so no "re-fetch the cart and confirm" step precedes the `True`
return, contradicting the claimed verification policy. -/
theorem c1_counterexample :
    efreshAddToCart true (ReqResult.resp 200) (ReqResult.resp 200) "12345" 2 =
      (Except.ok true, [Req.postApiCartAdd "12345" 2]) ∧
    (efreshAddToCart true (ReqResult.resp 200) (ReqResult.resp 200) "12345" 2).2.all
      (fun r => !isCartFetch r) = true :=
  ⟨rfl, rfl⟩

/-- C1 (amended): none of the three `add_to_cart` implementations performs a
cart re-fetch — every request trace of `add_to_cart` is free of cart-fetch
requests; success is decided by the HTTP status of the mutating call(s)
alone. -/
theorem c1_add_to_cart_never_refetches (auth : Bool) (apiResp formResp addResp : ReqResult)
    (pid : String) (q : Int) :
    (efreshAddToCart auth apiResp formResp pid q).2.all (fun r => !isCartFetch r) = true ∧
    (skroutzAddToCart auth addResp pid q).2.all (fun r => !isCartFetch r) = true ∧
    (sklAddToCart auth addResp pid q).2.all (fun r => !isCartFetch r) = true := by
  refine ⟨?_, ?_, ?_⟩
  · cases auth with
    | false => rfl
    | true =>
      cases apiResp with
      | raised => cases formResp <;> simp [efreshAddToCart, isCartFetch]
      | resp s =>
        by_cases hs : (s == 200 || s == 201) = true
        · simp [efreshAddToCart, hs, isCartFetch]
        · cases formResp <;> simp [efreshAddToCart, hs, isCartFetch]
  · cases auth with
    | false => rfl
    | true => cases addResp <;> simp [skroutzAddToCart, isCartFetch]
  · cases auth with
    | false => rfl
    | true => cases addResp <;> simp [sklAddToCart, isCartFetch]

/-- C2 counterexample: with an authenticated session, a transport failure of
both the API call and the HTML-fallback call makes `EFreshClient.get_cart`
propagate the transport error to the caller — it is not converted to an
empty/false/null result, contradicting the claimed failure semantics. -/
theorem c2_counterexample :
    efreshGetCart true ReqResult.raised none ReqResult.raised {} =
      (Except.error PyErr.transport, [Req.getApiCart, Req.getCartPage]) :=
  rfl

/-- C2 (amended): the skroutz operations (`get_cart`, `add_to_cart`) and the
sklavenitis `add_to_cart` convert every transport outcome into an ordinary
result, with only the not-authenticated precondition escaping; the efresh
operations are excluded because their HTML-fallback path runs outside any
handler (see the counterexample). -/
theorem c2_errors_confined :
    (∀ (auth : Bool) (pageResp : ReqResult) (pageCart : Cart),
      skroutzGetCart auth pageResp pageCart = Except.error PyErr.notAuthenticated ∨
      ∃ c, skroutzGetCart auth pageResp pageCart = Except.ok c) ∧
    (∀ (auth : Bool) (addResp : ReqResult) (pid : String) (q : Int),
      (skroutzAddToCart auth addResp pid q).1 = Except.error PyErr.notAuthenticated ∨
      ∃ b, (skroutzAddToCart auth addResp pid q).1 = Except.ok b) ∧
    (∀ (auth : Bool) (addResp : ReqResult) (pid : String) (q : Int),
      (sklAddToCart auth addResp pid q).1 = Except.error PyErr.notAuthenticated ∨
      ∃ b, (sklAddToCart auth addResp pid q).1 = Except.ok b) := by
  refine ⟨?_, ?_, ?_⟩
  · intro auth pageResp pageCart
    cases auth with
    | false => exact Or.inl rfl
    | true =>
      cases pageResp with
      | raised => exact Or.inr ⟨{}, rfl⟩
      | resp s =>
        by_cases hs : 400 ≤ s
        · exact Or.inr ⟨{}, by simp [skroutzGetCart, hs]⟩
        · exact Or.inr ⟨pageCart, by simp [skroutzGetCart, hs]⟩
  · intro auth addResp pid q
    cases auth with
    | false => exact Or.inl rfl
    | true => cases addResp <;> exact Or.inr ⟨_, rfl⟩
  · intro auth addResp pid q
    cases auth with
    | false => exact Or.inl rfl
    | true => cases addResp <;> exact Or.inr ⟨_, rfl⟩

/-- C3 counterexample: a session file holding a valid non-object JSON document
(here an array) makes the skroutz `_load_session` raise `TypeError`
(`SessionData(**data)` on a non-mapping), escaping its
`except (JSONDecodeError, ValueError)` handler — so `load()` is not
raise-free for arbitrary corrupt content. -/
theorem c3_counterexample :
    skroutzLoadSession (some (FileContent.valid (Json.arr []))) =
      Except.error PyErr.typeError :=
  rfl

/-- C3 (amended): the sklavenitis `_load_session` never raises for any
session-file or legacy-file state; the skroutz `_load_session` never raises
when the file is absent, is unparseable text, or parses to a JSON object —
only a valid non-object JSON document raises (see the counterexample). -/
theorem c3_load_session_tolerant :
    (∀ (fs legacy : Option FileContent) (writeOk : Bool),
      ∃ r, sklLoadSession fs legacy writeOk = Except.ok r) ∧
    (∀ fs : Option FileContent, loadShapeOk fs = true →
      ∃ s, skroutzLoadSession fs = Except.ok s) :=
  ⟨sklLoadSession_total, skroutzLoadSession_ok_of_shape⟩

/-- C3 witness: both amended parts evaluated at concrete file states. -/
theorem c3_witness :
    (∃ r, sklLoadSession (some FileContent.corruptText) none true = Except.ok r) ∧
    (∃ s, skroutzLoadSession (some FileContent.corruptText) = Except.ok s) :=
  ⟨c3_load_session_tolerant.1 (some FileContent.corruptText) none true,
   c3_load_session_tolerant.2 (some FileContent.corruptText) (by decide)⟩

/-- C4 counterexample: an I/O failure while writing the session file makes the
skroutz `save_session` raise (its `_save_session` has no handler),
contradicting "save() does not raise on any I/O failure". -/
theorem c4_counterexample :
    (skroutzSaveSession [("sid", "abc")] none false).2 = Except.error PyErr.ioError :=
  rfl

/-- C4 (amended): the sklavenitis `save_session` never raises — a write
failure is logged and swallowed, leaving the in-memory session updated and
the file unchanged; the skroutz `save_session` updates the in-memory session
first but propagates a write failure (see the counterexample). -/
theorem c4_save_session_failure_semantics :
    (∀ (cookies : Json) (writeOk : Bool) (fs : Option FileContent),
      sklSaveSession cookies writeOk fs =
        Except.ok ({ cookies := cookies, is_authenticated := jsonTruthy cookies },
          if writeOk then some (sklSessionFileContent cookies) else fs)) ∧
    (∀ (cookies : List (String × String)) (mail : Option String) (writeOk : Bool),
      (skroutzSaveSession cookies mail writeOk).1 =
        { cookies := cookies, user_id := none, user_email := mail,
          is_authenticated := true } ∧
      (skroutzSaveSession cookies mail writeOk).2 =
        if writeOk then
          Except.ok (some (FileContent.valid (dumpSession
            { cookies := cookies, user_id := none, user_email := mail,
              is_authenticated := true })))
        else Except.error PyErr.ioError) := by
  refine ⟨sklSaveSession_total, ?_⟩
  intro cookies mail writeOk
  cases writeOk <;> exact ⟨rfl, rfl⟩

/-- C5 counterexample: the sklavenitis manager saving an empty cookie map and
immediately reloading the written file yields `is_authenticated = false`, not
`true` — `_load_session` recomputes the flag from cookie non-emptiness. -/
theorem c5_counterexample :
    sklSaveSession (Json.obj []) true none =
      Except.ok ({ cookies := Json.obj [], is_authenticated := false },
        some (sklSessionFileContent (Json.obj []))) ∧
    sklLoadSession (some (sklSessionFileContent (Json.obj []))) none true =
      Except.ok ({ cookies := Json.obj [], is_authenticated := false },
        some (sklSessionFileContent (Json.obj []))) :=
  ⟨rfl, rfl⟩

/-- C5 (amended): reloading the file written by save yields identical cookies
and `is_authenticated = true` — unconditionally for the skroutz manager, and
for the sklavenitis manager whenever the saved cookie map is non-empty (an
empty map reloads as unauthenticated, see the counterexample). -/
theorem c5_save_load_round_trip :
    (∀ (cookies : List (String × String)) (mail : Option String),
      skroutzLoadSession (some (FileContent.valid (dumpSession
        ((skroutzSaveSession cookies mail true).1)))) =
        Except.ok { cookies := cookies, user_id := none, user_email := mail,
                    is_authenticated := true }) ∧
    (∀ fields : List (String × Json), fields ≠ [] →
      ∀ (legacy : Option FileContent) (writeOk : Bool),
        sklLoadSession (some (sklSessionFileContent (Json.obj fields))) legacy writeOk =
          Except.ok ({ cookies := Json.obj fields, is_authenticated := true },
            some (sklSessionFileContent (Json.obj fields)))) := by
  constructor
  · intro cookies mail
    have hcv := validateStrPairs_dump cookies
    cases mail <;>
      simp [skroutzSaveSession, dumpSession, skroutzLoadSession, sessionDataOfKwargs,
            objGet, dumpOptStr, validateStrMap, hcv, validateOptStr, validateBool,
            Bind.bind, Except.bind]
  · intro fields hne legacy writeOk
    have ht : jsonTruthy (Json.obj fields) = true := by
      simp [jsonTruthy, isEmpty_false_of_ne_nil fields hne]
    simp [sklLoadSession, sklSessionFileContent, objGet, ht]

/-- C5 witness: the round trip evaluated at concrete cookie maps. -/
theorem c5_witness :
    skroutzLoadSession (some (FileContent.valid (dumpSession
      ((skroutzSaveSession [("k", "v")] (some "u") true).1)))) =
      Except.ok { cookies := [("k", "v")], user_id := none, user_email := some "u",
                  is_authenticated := true } ∧
    sklLoadSession (some (sklSessionFileContent (Json.obj [("a", Json.str "b")]))) none true =
      Except.ok ({ cookies := Json.obj [("a", Json.str "b")], is_authenticated := true },
        some (sklSessionFileContent (Json.obj [("a", Json.str "b")]))) :=
  ⟨c5_save_load_round_trip.1 [("k", "v")] (some "u"),
   c5_save_load_round_trip.2 [("a", Json.str "b")] (List.cons_ne_nil _ _) none true⟩

/-- C6 counterexample: `save_session` with an empty cookie map produces a
`SessionData` record whose `is_authenticated` field is `true` while `cookies`
is empty — the claimed record invariant fails after a save operation. -/
theorem c6_counterexample :
    (skroutzSaveSession [] none true).1.is_authenticated = true ∧
    (skroutzSaveSession [] none true).1.cookies = [] :=
  ⟨rfl, rfl⟩

/-- C6 (amended): the invariant holds for the derived accessor, not the raw
field: for every session record, `is_authenticated()` (the method, which
conjoins the flag with cookie non-emptiness) returning `true` implies the
cookie map is non-empty. -/
theorem c6_is_authenticated_nonempty (s : SessionData)
    (h : skroutzIsAuthenticated s = true) : s.cookies ≠ [] := by
  intro hc
  simp [skroutzIsAuthenticated, hc] at h

/-- C6 witness: the accessor invariant applied at a concrete session. -/
theorem c6_witness :
    ({ cookies := [("sid", "x")], is_authenticated := true } : SessionData).cookies ≠ [] :=
  c6_is_authenticated_nonempty
    { cookies := [("sid", "x")], is_authenticated := true } rfl

/-- C7: for every stream of remote responses — including one where every page
is full forever — the `get_orders` pagination loop issues at most
`max_pages = 50` page requests. -/
theorem c7_get_orders_pagination_bounded (pages : Nat → PageResult) :
    (efreshGetOrdersPages pages).2 ≤ efreshMaxPages :=
  ordersLoop_fetch_le pages efreshMaxPages 1 []

/-- C8: `update_cart_item_quantity(pid, q)` is definitionally the same
operation as `add_to_cart(pid, q)` for the e-fresh client, and under the
spec-modelled set-semantics of the cart-add endpoint, the resulting line
quantity is exactly `q` (never `previous + q`). -/
theorem c8_update_sets_quantity :
    (∀ (auth : Bool) (apiResp formResp : ReqResult) (pid : String) (q : Int),
      efreshUpdateCartItemQuantity auth apiResp formResp pid q =
        efreshAddToCart auth apiResp formResp pid q) ∧
    (∀ (cart : List (String × Int)) (pid : String) (q : Int),
      lookupQty (efreshCartAddEndpoint cart pid q) pid = some q) := by
  refine ⟨fun _ _ _ _ _ => rfl, ?_⟩
  intro cart pid q
  by_cases h : cart.any (fun kv => kv.1 == pid) = true
  · simp only [efreshCartAddEndpoint, if_pos h]
    exact lookupQty_set cart pid q h
  · simp only [efreshCartAddEndpoint, if_neg h]
    exact lookupQty_append_absent cart pid q (eq_false_of_ne_true h)

/-- C9: a single malformed entry in a product-list response is skipped — the
parser returns exactly the parses of the well-formed entries, one fewer than
the input length, with no exception and no collapse to an empty batch. -/
theorem c9_single_malformed_entry_skipped (ys : List Json) (bad : Json) (zs : List Json)
    (hys : ∀ j ∈ ys, ∃ p, parseProductEntry j = Except.ok p)
    (hzs : ∀ j ∈ zs, ∃ p, parseProductEntry j = Except.ok p)
    (hbad : ∃ e, parseProductEntry bad = Except.error e) :
    parseProductsFromApi (ys ++ bad :: zs) =
      parseProductsFromApi ys ++ parseProductsFromApi zs ∧
    (parseProductsFromApi (ys ++ bad :: zs)).length = (ys ++ bad :: zs).length - 1 := by
  obtain ⟨e, he⟩ := hbad
  have hsplit : parseProductsFromApi (ys ++ bad :: zs) =
      parseProductsFromApi ys ++ parseProductsFromApi zs := by
    simp [parseProductsFromApi, List.filterMap_append, List.filterMap_cons, he,
          Except.toOption]
  refine ⟨hsplit, ?_⟩
  rw [hsplit]
  have h1 := parseProductsFromApi_of_all_ok ys hys
  have h2 := parseProductsFromApi_of_all_ok zs hzs
  simp [List.length_append, h1, h2]

/-- C9 witness: nineteen well-formed entries and one malformed entry yield
nineteen products. -/
theorem c9_witness :
    (parseProductsFromApi
      (List.replicate 19 sampleProductEntry ++ malformedProductEntry :: [])).length = 19 := by
  have h := c9_single_malformed_entry_skipped
    (List.replicate 19 sampleProductEntry) malformedProductEntry []
    (fun j hj => by
      rw [List.eq_of_mem_replicate hj]
      exact ⟨_, rfl⟩)
    (fun j hj => absurd hj (List.not_mem_nil j))
    ⟨PyErr.attributeError, rfl⟩
  simpa using h.2

/-- C10 counterexample: in an environment where `SKROUTZ_LOGGED_IN` is set to
the empty string and nothing else is set, constructing the skroutz
`AuthManager` reaches the `SKROUTZ_COOKIES` fallback (third component
`true`), writes no session file, and ends unauthenticated — refuting "for
every environment". -/
theorem c10_counterexample :
    skroutzInit none { logged_in := some "" } true = Except.ok ({}, none, true) ∧
    skroutzIsAuthenticated {} = false :=
  ⟨rfl, rfl⟩

/-- C10 (amended): whenever `SKROUTZ_LOGGED_IN` is unset or non-empty (and
the session file is in a shape `_load_session` survives, and the write
succeeds), construction ends with `is_authenticated()` true, the session file
written, and the `SKROUTZ_COOKIES` fallback never reached. -/
theorem c10_env_cookies_always_authenticate (fs : Option FileContent)
    (env : SkroutzEnv) (h1 : loadShapeOk fs = true) (h2 : envLoggedInOk env = true) :
    ∃ s : SessionData,
      skroutzInit fs env true =
        Except.ok (s, some (FileContent.valid (dumpSession s)), false) ∧
      skroutzIsAuthenticated s = true := by
  obtain ⟨s0, hs0⟩ := skroutzLoadSession_ok_of_shape fs h1
  have hne := method1_ne_nil env h2
  have hie := isEmpty_false_of_ne_nil _ hne
  obtain ⟨m, hm, hmlen⟩ :=
    validateStrPairs_of_all_str (skroutzMethod1Cookies env) (method1_all_str env)
  have hmne : m ≠ [] := by
    intro hmnil
    rw [hmnil] at hmlen
    exact hne (List.eq_nil_of_length_eq_zero hmlen.symm)
  refine ⟨{ cookies := m, is_authenticated := true }, ?_, ?_⟩
  · simp only [skroutzInit, hs0, skroutzEnvUpdate, skroutzLoadCookiesFromEnv, hie,
               Bool.false_eq_true, if_false, validateStrMap, hm,
               skroutzWriteSessionFile]
    simp
  · simp [skroutzIsAuthenticated, isEmpty_false_of_ne_nil m hmne]

/-- C10 witness: the amended construction behaviour in the all-unset
environment. -/
theorem c10_witness :
    ∃ s : SessionData,
      skroutzInit none {} true =
        Except.ok (s, some (FileContent.valid (dumpSession s)), false) ∧
      skroutzIsAuthenticated s = true :=
  c10_env_cookies_always_authenticate none {} (by decide) (by decide)

end Spec
